import Mathlib

/-!
# Verification of SLA-NG `probed/net.c`

A shallow embedding of the wrapped network functions of SLA-NG's probe
daemon (`src/probed/net.c`): `recv_w_ts`, `send_w_ts` and `bind_or_die`.

Operating-system behaviour (the outcome of `recvmsg`, `sendto`,
`clock_gettime`, `socket`, `bind`, `listen`, `setsockopt`, and of the
timestamp helpers `tstamp_extract` / `tstamp_fetch_tx` whose bodies live
outside the given sources) is passed in explicitly as an environment
value, and every function additionally returns the trace of observable
events it performs (clock reads, syscalls, `syslog` entries, `exit`),
so that ordering and process-termination properties are statable.
-/

namespace SlaNg

/-- Modelled from the spec: `DATALEN` is the fixed probe-payload length
defined in `probed.h` (a header not among the given sources); the spec
only requires it to be a fixed positive datagram size, and none of the
properties proved below depend on the concrete value chosen here. -/
def DATALEN : Nat := 48

/-- Linux `MSG_ERRQUEUE` flag bit (0x2000), used by `recv_w_ts` to tell
an error-queue poll from an ordinary data receive. -/
def MSG_ERRQUEUE : Nat := 8192

/-- `EXIT_FAILURE` as passed to `exit` by `bind_or_die`. -/
def EXIT_FAILURE : Nat := 1

/-- `struct timespec`, the C type behind `ts_t` in `probed.h`:
seconds and nanoseconds. It carries no validity or source field. -/
structure ts_t where
  tv_sec : Int
  tv_nsec : Int
deriving DecidableEq, Repr

/-- The all-zero `timespec`, the value `memset(ts, 0, ...)` produces. -/
def ts_zero : ts_t := ⟨0, 0⟩

/-- `struct pkt_t`: peer address (opaque here), payload buffer of
`DATALEN` bytes, and the rx/tx timestamp. -/
structure pkt_t where
  addr : Nat
  data : List Nat
  ts : ts_t
deriving DecidableEq, Repr

/-- Syslog severity levels used by `net.c`. -/
inductive LogLevel where
  | info
  | warning
  | err
deriving DecidableEq, Repr

/-- Observable events of the embedded functions: clock reads, the
syscalls they issue, `syslog` entries (level and static message text;
`errno` strings are dropped) and process exit. -/
inductive Event where
  | clockRead
  | sendtoCall (wire : List Nat)
  | recvmsgCall (flags : Nat)
  | fetchTx
  | extractTs
  | socketCall
  | bindCall
  | listenCall
  | setsockoptCall
  | logged (lvl : LogLevel) (msg : String)
  | exitCall (code : Nat)
deriving DecidableEq, Repr

/-- Overwrite the first `src.length` cells of buffer `buf` with `src`
(writes are truncated to the buffer's length), as a syscall writing
into a caller-supplied buffer does. -/
def overwriteStart (buf src : List Nat) : List Nat :=
  src.take buf.length ++ buf.drop (min src.length buf.length)

/-- The `cfg` global of probed; only its timestamping-mode character
`ts` is consulted by `net.c` (`'u'` selects userland timestamps). -/
structure Cfg where
  ts : Char
deriving DecidableEq, Repr

/-- OS behaviour visible to one `recv_w_ts` call: whether `recvmsg`
succeeds, and if so the delivered datagram bytes, the source address,
and the outcome of `tstamp_extract` on the ancillary control data
(`none` models a negative return). `tstamp_extract` itself is outside
the given sources; modelled from the spec: it parses the kernel-attached
ancillary data and either yields a timestamp or fails. -/
structure RecvEnv where
  recvmsg_ok : Bool
  dgram : List Nat
  srcaddr : Nat
  extract : Option ts_t
deriving DecidableEq, Repr

/-- Embedding of `recv_w_ts` (`net.c` lines 26-67).

`pkt0` is the caller's `pkt_t` variable before the call (the parameter
is `@out`, so its prior contents matter for frame questions). The
function zeroes `pkt->data` (`memset`, line 36), then on `recvmsg`
success stores the datagram prefix and source address; on an
error-queue poll (`MSG_ERRQUEUE` set) a failed `tstamp_extract`
returns `-1`, while on an ordinary receive it only logs
"RX timestamp error" and returns `0`. Returns
(return value, final `pkt`, event trace). -/
def recv_w_ts (env : RecvEnv) (sock flags : Nat) (pkt0 : pkt_t) :
    Int × pkt_t × List Event :=
  let _ := sock
  let data0 := List.replicate DATALEN 0
  let pkt1 : pkt_t := { pkt0 with data := data0 }
  if env.recvmsg_ok = false then
    (-1, pkt1,
      if flags &&& MSG_ERRQUEUE == 0 then
        [Event.recvmsgCall flags, Event.logged .info "recvmsg"]
      else
        [Event.recvmsgCall flags])
  else
    let pkt2 : pkt_t :=
      { pkt1 with data := overwriteStart data0 env.dgram, addr := env.srcaddr }
    if flags &&& MSG_ERRQUEUE != 0 then
      match env.extract with
      | none => (-1, pkt2, [Event.recvmsgCall flags, Event.extractTs])
      | some t =>
          (0, { pkt2 with ts := t }, [Event.recvmsgCall flags, Event.extractTs])
    else
      match env.extract with
      | none =>
          (0, pkt2,
            [Event.recvmsgCall flags, Event.extractTs,
             Event.logged .err "RX timestamp error"])
      | some t =>
          (0, { pkt2 with ts := t }, [Event.recvmsgCall flags, Event.extractTs])

/-- OS behaviour visible to one `send_w_ts` call: the software
real-time clock value `clock_gettime(CLOCK_REALTIME, ..)` would store,
whether `sendto` succeeds, and the outcome of `tstamp_fetch_tx`
(`none` models a negative return). `tstamp_fetch_tx` itself is outside
the given sources; modelled from the spec: it obtains the kernel TX
timestamp for the just-sent packet from the socket's error queue,
writing it only on success. -/
structure SendEnv where
  swClock : ts_t
  sendto_ok : Bool
  fetch : Option ts_t
deriving DecidableEq, Repr

/-- Embedding of `send_w_ts` (`net.c` lines 84-105).

`ts0` is the caller's `ts_t` variable before the call (`@out`
parameter). The function zeroes `*ts` (`memset`, line 88); in userland
mode (`cfg.ts = 'u'`) it stores the software clock reading before
`sendto`; on `sendto` failure it logs and returns `-1`; in kernel mode
it then calls `tstamp_fetch_tx`, logging "TX timestamp error" and
returning `-1` if that fails. Returns
(return value, final `ts`, event trace). -/
def send_w_ts (cfg : Cfg) (env : SendEnv) (sock addr : Nat)
    (data : List Nat) (ts0 : ts_t) : Int × ts_t × List Event :=
  let _ := sock
  let _ := addr
  let _ := ts0
  let ts1 := ts_zero
  let ts2 := if cfg.ts = 'u' then env.swClock else ts1
  let tr1 := if cfg.ts = 'u' then [Event.clockRead] else []
  let wire := data.take DATALEN
  if env.sendto_ok = false then
    (-1, ts2, tr1 ++ [Event.sendtoCall wire, Event.logged .info "sendto"])
  else
    if cfg.ts ≠ 'u' then
      match env.fetch with
      | none =>
          (-1, ts2,
            tr1 ++ [Event.sendtoCall wire, Event.fetchTx,
                    Event.logged .err "TX timestamp error"])
      | some t =>
          (0, t, tr1 ++ [Event.sendtoCall wire, Event.fetchTx])
    else
      (0, ts2, tr1 ++ [Event.sendtoCall wire])

/-- OS behaviour visible to one `bind_or_die` call: the outcome of each
socket-acquisition step, in program order. `socket` results are `none`
on failure, otherwise the descriptor. -/
structure BindEnv where
  udp_socket : Option Nat
  udp_v6only_ok : Bool
  udp_bind_ok : Bool
  tcp_socket : Option Nat
  tcp_v6only_ok : Bool
  tcp_reuse_ok : Bool
  tcp_bind_ok : Bool
  listen_ok : Bool
deriving DecidableEq, Repr

/-- Result of `bind_or_die`: either the process exited, or the call
returned with the two descriptors stored in `*s_udp` and `*s_tcp`. -/
inductive BindResult where
  | exited (code : Nat)
  | ret (s_udp s_tcp : Nat)
deriving DecidableEq, Repr

/-- Embedding of `bind_or_die` (`net.c` lines 116-165).

Creates and binds the UDP socket, best-effort disables `IPV6_V6ONLY`
(failure only logged at `LOG_ERR`), binds; then the same for the TCP
socket plus `SO_REUSEADDR`, and puts it into listening mode. Any
`socket`, `bind` or `listen` failure logs and exits with
`EXIT_FAILURE`. Returns (result, event trace). -/
def bind_or_die (env : BindEnv) (port : Nat) : BindResult × List Event :=
  let _ := port
  let tr0 := [Event.logged .info "Binding port", Event.socketCall]
  match env.udp_socket with
  | none => (.exited EXIT_FAILURE, tr0 ++ [Event.logged .err "socket",
      Event.exitCall EXIT_FAILURE])
  | some u =>
    let tr1 := tr0 ++ [Event.setsockoptCall] ++
      (if env.udp_v6only_ok then []
       else [Event.logged .err "setsockopt: IPV6_V6ONLY"])
    let tr2 := tr1 ++ [Event.bindCall]
    if env.udp_bind_ok = false then
      (.exited EXIT_FAILURE, tr2 ++ [Event.logged .err "bind",
        Event.exitCall EXIT_FAILURE])
    else
      let tr3 := tr2 ++ [Event.socketCall]
      match env.tcp_socket with
      | none => (.exited EXIT_FAILURE, tr3 ++ [Event.logged .err "socket",
          Event.exitCall EXIT_FAILURE])
      | some t =>
        let tr4 := tr3 ++ [Event.setsockoptCall] ++
          (if env.tcp_v6only_ok then []
           else [Event.logged .err "setsockopt: IPV6_V6ONLY"])
        let tr5 := tr4 ++ [Event.setsockoptCall] ++
          (if env.tcp_reuse_ok then []
           else [Event.logged .err "setsockopt: SO_REUSEADDR"])
        let tr6 := tr5 ++ [Event.bindCall]
        if env.tcp_bind_ok = false then
          (.exited EXIT_FAILURE, tr6 ++ [Event.logged .err "bind",
            Event.exitCall EXIT_FAILURE])
        else
          let tr7 := tr6 ++ [Event.listenCall]
          if env.listen_ok = false then
            (.exited EXIT_FAILURE, tr7 ++ [Event.logged .err "listen",
              Event.exitCall EXIT_FAILURE])
          else
            (.ret u t, tr7)

/-! ## Helper lemmas about the receive buffer -/

/-- Writing a datagram of at most `DATALEN` bytes over the zeroed
receive buffer yields the datagram followed by a zero tail. -/
theorem overwriteStart_zero_pad (d : List Nat) (h : d.length ≤ DATALEN) :
    overwriteStart (List.replicate DATALEN 0) d =
      d ++ List.replicate (DATALEN - d.length) 0 := by
  unfold overwriteStart
  rw [List.length_replicate, List.take_of_length_le h, Nat.min_eq_left h,
    List.drop_replicate]

/-- Writing a full-length datagram over the zeroed receive buffer
yields exactly the datagram. -/
theorem overwriteStart_zero_exact (d : List Nat) (h : d.length = DATALEN) :
    overwriteStart (List.replicate DATALEN 0) d = d := by
  rw [overwriteStart_zero_pad d (le_of_eq h), h, Nat.sub_self,
    List.replicate_zero, List.append_nil]

/-! ## Claims -/

/-- C5: in userland timestamp mode (`cfg.ts = 'u'`), `send_w_ts` reads
the software real-time clock strictly before issuing `sendto` (the
`clockRead` event precedes the `sendtoCall` event in the trace), and on
a successful send it returns `0` with exactly that pre-send software
clock reading as the TX timestamp, regardless of the actual wire
departure time. -/
theorem send_userland_clock_before_send (env : SendEnv) (sock addr : Nat)
    (data : List Nat) (ts0 : ts_t) (hs : env.sendto_ok = true) :
    send_w_ts ⟨'u'⟩ env sock addr data ts0 =
      (0, env.swClock,
        [Event.clockRead, Event.sendtoCall (data.take DATALEN)]) := by
  simp [send_w_ts, hs]

/-- Witness for C5 at a concrete environment. -/
theorem send_userland_clock_before_send_witness :
    send_w_ts ⟨'u'⟩ ⟨⟨7, 11⟩, true, none⟩ 3 0 [] ⟨1, 2⟩ =
      (0, ⟨7, 11⟩, [Event.clockRead, Event.sendtoCall []]) := by
  have h := send_userland_clock_before_send ⟨⟨7, 11⟩, true, none⟩ 3 0 [] ⟨1, 2⟩ rfl
  simpa using h

/-- C9: in userland timestamp mode, when `sendto` fails, `send_w_ts`
returns `-1` but the caller's timestamp variable has already been
overwritten with the pre-send software clock reading — for every prior
value `ts0`, the output timestamp is `env.swClock` (so it is neither
left unchanged nor left at the `memset` zero whenever the clock reading
differs from those values). -/
theorem send_userland_fail_overwrites_ts (env : SendEnv) (sock addr : Nat)
    (data : List Nat) (ts0 : ts_t) (hs : env.sendto_ok = false) :
    send_w_ts ⟨'u'⟩ env sock addr data ts0 =
      (-1, env.swClock,
        [Event.clockRead, Event.sendtoCall (data.take DATALEN),
         Event.logged .info "sendto"]) := by
  simp [send_w_ts, hs]

/-- Witness for C9 at a concrete environment: the failed send leaves
the clock reading `⟨5, 7⟩`, which differs from both the prior value
`⟨1, 1⟩` and the all-zero timestamp. -/
theorem send_userland_fail_overwrites_ts_witness :
    (send_w_ts ⟨'u'⟩ ⟨⟨5, 7⟩, false, none⟩ 3 0 [] ⟨1, 1⟩).2.1 = ⟨5, 7⟩ ∧
    ((⟨5, 7⟩ : ts_t) ≠ ⟨1, 1⟩ ∧ (⟨5, 7⟩ : ts_t) ≠ ts_zero) := by
  have h := send_userland_fail_overwrites_ts ⟨⟨5, 7⟩, false, none⟩ 3 0 [] ⟨1, 1⟩ rfl
  exact ⟨by rw [h], by decide, by decide⟩

/-- C8: `recv_w_ts` treats a `tstamp_extract` failure asymmetrically by
receive path: on an error-queue poll it returns `-1`, the same value an
outright `recvmsg` transport failure produces (so the caller cannot
tell the two apart from the return value), while on an ordinary data
receive the same extraction failure still returns `0`. -/
theorem recv_extract_fail_asymmetry (dgram : List Nat) (a sock : Nat)
    (pkt0 pkt1 : pkt_t) :
    (recv_w_ts ⟨true, dgram, a, none⟩ sock MSG_ERRQUEUE pkt0).1 = -1 ∧
    (recv_w_ts ⟨false, dgram, a, none⟩ sock MSG_ERRQUEUE pkt1).1 = -1 ∧
    (recv_w_ts ⟨true, dgram, a, none⟩ sock 0 pkt0).1 = 0 := by
  refine ⟨?_, ?_, ?_⟩ <;> simp [recv_w_ts, MSG_ERRQUEUE]

/-- C10: `recv_w_ts` zeroes all `DATALEN` payload bytes (`memset`)
before issuing `recvmsg`, so a successful ordinary receive of a
datagram shorter than `DATALEN` returns the datagram followed by an
all-zero tail. -/
theorem recv_short_datagram_zero_tail (dgram : List Nat)
    (a sock flags : Nat) (x : Option ts_t) (pkt0 : pkt_t)
    (hlen : dgram.length < DATALEN) (hf : flags &&& MSG_ERRQUEUE = 0) :
    (recv_w_ts ⟨true, dgram, a, x⟩ sock flags pkt0).1 = 0 ∧
    (recv_w_ts ⟨true, dgram, a, x⟩ sock flags pkt0).2.1.data =
      dgram ++ List.replicate (DATALEN - dgram.length) 0 := by
  have hped := overwriteStart_zero_pad dgram (Nat.le_of_lt hlen)
  cases x <;> simp [recv_w_ts, hf, hped]

/-- Witness for C10: receiving the three-byte datagram `[1, 2, 3]`
yields a payload whose remaining `DATALEN - 3` bytes are zero. -/
theorem recv_short_datagram_zero_tail_witness :
    (recv_w_ts ⟨true, [1, 2, 3], 9, none⟩ 4 0 ⟨0, [], ts_zero⟩).1 = 0 ∧
    (recv_w_ts ⟨true, [1, 2, 3], 9, none⟩ 4 0 ⟨0, [], ts_zero⟩).2.1.data =
      [1, 2, 3] ++ List.replicate (DATALEN - 3) 0 :=
  recv_short_datagram_zero_tail [1, 2, 3] 9 4 0 none ⟨0, [], ts_zero⟩
    (by decide) rfl

/-- C1 counterexample: in kernel timestamp mode (`cfg.ts = 'k'`), with
the underlying `sendto` succeeding but the kernel TX timestamp not yet
available (`tstamp_fetch_tx` fails), `send_w_ts` returns `-1` — it
fails the send itself instead of returning a "timestamp pending"
placeholder success. -/
theorem send_kernel_pending_counterexample :
    (send_w_ts ⟨'k'⟩ ⟨ts_zero, true, none⟩ 3 0 [] ts_zero).1 = -1 := by
  decide

/-- C1 (amended): in kernel timestamp mode, after a successful
underlying send, `send_w_ts` synchronously obtains the kernel TX
timestamp via `tstamp_fetch_tx`: on fetch success it returns `0` with
the fetched timestamp, and when the timestamp is unavailable it logs
"TX timestamp error" and returns `-1`, failing the send itself rather
than leaving a pending placeholder for the session layer. -/
theorem send_kernel_sync_fetch (cfg : Cfg) (env : SendEnv)
    (sock addr : Nat) (data : List Nat) (ts0 : ts_t)
    (hm : cfg.ts ≠ 'u') (hs : env.sendto_ok = true) :
    (∀ t, env.fetch = some t →
      send_w_ts cfg env sock addr data ts0 =
        (0, t, [Event.sendtoCall (data.take DATALEN), Event.fetchTx])) ∧
    (env.fetch = none →
      (send_w_ts cfg env sock addr data ts0).1 = -1 ∧
      Event.logged .err "TX timestamp error" ∈
        (send_w_ts cfg env sock addr data ts0).2.2) := by
  constructor
  · intro t ht
    simp [send_w_ts, hm, hs, ht]
  · intro ht
    simp [send_w_ts, hm, hs, ht]

/-- Witness for C1's amended theorem at a concrete kernel-mode
environment with an unavailable TX timestamp. -/
theorem send_kernel_sync_fetch_witness :
    (send_w_ts ⟨'k'⟩ ⟨ts_zero, true, none⟩ 3 0 [] ts_zero).1 = -1 ∧
    Event.logged .err "TX timestamp error" ∈
      (send_w_ts ⟨'k'⟩ ⟨ts_zero, true, none⟩ 3 0 [] ts_zero).2.2 :=
  (send_kernel_sync_fetch ⟨'k'⟩ ⟨ts_zero, true, none⟩ 3 0 [] ts_zero
    (by decide) rfl).2 rfl

/-- C2 counterexample: the packet an ordinary receive returns after a
failed timestamp extraction is identical, field for field, to the
packet returned when extraction succeeds with the timestamp `⟨5, 5⟩`
(given that the caller's variable held `⟨5, 5⟩` beforehand), and both
calls return `0`; the timestamp field therefore carries no
"unavailable" marking distinguishing the failed case. -/
theorem recv_ts_not_marked_counterexample :
    (recv_w_ts ⟨true, [1, 2], 9, none⟩ 3 0 ⟨0, [], ⟨5, 5⟩⟩).1 = 0 ∧
    (recv_w_ts ⟨true, [1, 2], 9, none⟩ 3 0 ⟨0, [], ⟨5, 5⟩⟩).2.1 =
      (recv_w_ts ⟨true, [1, 2], 9, some ⟨5, 5⟩⟩ 3 0 ⟨0, [], ⟨5, 5⟩⟩).2.1 := by
  decide

/-- C2 (amended): on an ordinary data receive (`MSG_ERRQUEUE` clear)
in which `recvmsg` succeeds but timestamp extraction fails,
`recv_w_ts` still returns `0` with the received payload and peer
address stored in the packet — the packet is never discarded because of
the extraction failure — but the packet's timestamp field is merely
left at its pre-call value (the C `ts_t` has no unavailable marking);
the failure is reported only through an error-level log entry. -/
theorem recv_data_extract_fail_keeps_packet (env : RecvEnv)
    (sock flags : Nat) (pkt0 : pkt_t) (hok : env.recvmsg_ok = true)
    (hx : env.extract = none) (hf : flags &&& MSG_ERRQUEUE = 0) :
    recv_w_ts env sock flags pkt0 =
      (0,
       ⟨env.srcaddr, overwriteStart (List.replicate DATALEN 0) env.dgram,
        pkt0.ts⟩,
       [Event.recvmsgCall flags, Event.extractTs,
        Event.logged .err "RX timestamp error"]) := by
  simp [recv_w_ts, hok, hx, hf]

/-- Witness for C2's amended theorem at a concrete environment with a
corrupt ancillary area (extraction fails). -/
theorem recv_data_extract_fail_keeps_packet_witness :
    recv_w_ts ⟨true, [1, 2], 9, none⟩ 3 0 ⟨0, [], ⟨5, 5⟩⟩ =
      (0, ⟨9, overwriteStart (List.replicate DATALEN 0) [1, 2], ⟨5, 5⟩⟩,
       [Event.recvmsgCall 0, Event.extractTs,
        Event.logged .err "RX timestamp error"]) :=
  recv_data_extract_fail_keeps_packet ⟨true, [1, 2], 9, none⟩ 3 0
    ⟨0, [], ⟨5, 5⟩⟩ rfl rfl rfl

/-- C3 counterexample: an ordinary receive whose timestamp extraction
fails, called with a packet whose timestamp field was all-zero, returns
`0` (success) and leaves the all-zero timestamp in place — the all-zero
value is silently left as if it were a valid measurement instant, with
no invalid/unavailable marking in the timestamp field. -/
theorem zero_ts_silently_left_counterexample :
    (recv_w_ts ⟨true, [1], 4, none⟩ 3 0 ⟨0, [], ts_zero⟩).1 = 0 ∧
    (recv_w_ts ⟨true, [1], 4, none⟩ 3 0 ⟨0, [], ts_zero⟩).2.1.ts =
      ts_zero := by
  decide

/-- C3 (amended): when timestamp extraction fails, the timestamp field
itself carries no invalid marking: in kernel mode `send_w_ts` signals
the failure out of band by returning `-1` while leaving the timestamp
at the `memset` all-zero value, and on an ordinary receive `recv_w_ts`
returns `0` with the timestamp field unchanged from its pre-call value
(possibly all-zero), the failure being reported only by an error-level
log entry. -/
theorem extract_fail_no_field_marking (cfg : Cfg) (senv : SendEnv)
    (renv : RecvEnv) (sock addr flags : Nat) (data : List Nat)
    (ts0 : ts_t) (pkt0 : pkt_t)
    (hm : cfg.ts ≠ 'u') (hs : senv.sendto_ok = true)
    (hfc : senv.fetch = none) (hro : renv.recvmsg_ok = true)
    (hrx : renv.extract = none) (hfl : flags &&& MSG_ERRQUEUE = 0) :
    ((send_w_ts cfg senv sock addr data ts0).1 = -1 ∧
     (send_w_ts cfg senv sock addr data ts0).2.1 = ts_zero) ∧
    ((recv_w_ts renv sock flags pkt0).1 = 0 ∧
     (recv_w_ts renv sock flags pkt0).2.1.ts = pkt0.ts ∧
     Event.logged .err "RX timestamp error" ∈
       (recv_w_ts renv sock flags pkt0).2.2) := by
  refine ⟨⟨?_, ?_⟩, ?_, ?_, ?_⟩ <;>
    simp [send_w_ts, recv_w_ts, hm, hs, hfc, hro, hrx, hfl]

/-- Witness for C3's amended theorem at concrete environments where
both the TX-timestamp fetch and the RX-timestamp extraction fail. -/
theorem extract_fail_no_field_marking_witness :
    ((send_w_ts ⟨'k'⟩ ⟨⟨7, 7⟩, true, none⟩ 3 0 [] ⟨1, 1⟩).1 = -1 ∧
     (send_w_ts ⟨'k'⟩ ⟨⟨7, 7⟩, true, none⟩ 3 0 [] ⟨1, 1⟩).2.1 = ts_zero) ∧
    ((recv_w_ts ⟨true, [1], 4, none⟩ 3 0 ⟨0, [], ts_zero⟩).1 = 0 ∧
     (recv_w_ts ⟨true, [1], 4, none⟩ 3 0 ⟨0, [], ts_zero⟩).2.1.ts =
       (⟨0, [], ts_zero⟩ : pkt_t).ts ∧
     Event.logged .err "RX timestamp error" ∈
       (recv_w_ts ⟨true, [1], 4, none⟩ 3 0 ⟨0, [], ts_zero⟩).2.2) :=
  extract_fail_no_field_marking ⟨'k'⟩ ⟨⟨7, 7⟩, true, none⟩
    ⟨true, [1], 4, none⟩ 3 0 0 [] ⟨1, 1⟩ ⟨0, [], ts_zero⟩
    (by decide) rfl rfl rfl rfl rfl

/-- C4: steady-state transceiver errors never terminate the process —
`recv_w_ts` and `send_w_ts` always return `0` or `-1` to the caller and
never issue `exit` — while `bind_or_die` exits with `EXIT_FAILURE`
exactly when a startup socket-acquisition step (socket creation, bind,
or listen) fails. -/
theorem only_bind_failures_exit :
    (∀ (env : RecvEnv) (sock flags : Nat) (pkt0 : pkt_t),
      ((recv_w_ts env sock flags pkt0).1 = 0 ∨
        (recv_w_ts env sock flags pkt0).1 = -1) ∧
      ∀ c, Event.exitCall c ∉ (recv_w_ts env sock flags pkt0).2.2) ∧
    (∀ (cfg : Cfg) (env : SendEnv) (sock addr : Nat) (data : List Nat)
        (ts0 : ts_t),
      ((send_w_ts cfg env sock addr data ts0).1 = 0 ∨
        (send_w_ts cfg env sock addr data ts0).1 = -1) ∧
      ∀ c, Event.exitCall c ∉ (send_w_ts cfg env sock addr data ts0).2.2) ∧
    (∀ (env : BindEnv) (port : Nat),
      (bind_or_die env port).1 = BindResult.exited EXIT_FAILURE ↔
        (env.udp_socket = none ∨ env.udp_bind_ok = false ∨
         env.tcp_socket = none ∨ env.tcp_bind_ok = false ∨
         env.listen_ok = false)) := by
  refine ⟨?_, ?_, ?_⟩
  · intro env sock flags pkt0
    rcases env with ⟨ok, dgram, a, x⟩
    cases ok <;> cases x <;>
      by_cases hb : (flags &&& MSG_ERRQUEUE == 0) = true <;>
        simp_all [recv_w_ts]
  · intro cfg env sock addr data ts0
    rcases env with ⟨cl, so, f⟩
    cases so <;> cases f <;> by_cases hc : cfg.ts = 'u' <;>
      simp_all [send_w_ts]
  · intro env port
    rcases env with ⟨us, uv, ub, tsk, tv, trs, tb, lo⟩
    cases us <;> cases ub <;> cases tsk <;> cases tb <;> cases lo <;>
      simp [bind_or_die]

/-- C6: the wire image of a send of a `DATALEN`-byte payload is exactly
that payload (the `sendtoCall` event carries it unchanged), and a
successful ordinary receive of that datagram on the peer returns `0`
with the packet's payload equal to the sent bytes — the transceiver
pair preserves the payload round-trip. -/
theorem send_recv_payload_roundtrip (cfg : Cfg) (senv : SendEnv)
    (sock addr rsock flags srcaddr : Nat) (payload : List Nat)
    (ts0 : ts_t) (x : Option ts_t) (pkt0 : pkt_t)
    (hlen : payload.length = DATALEN) (hs : senv.sendto_ok = true)
    (hf : flags &&& MSG_ERRQUEUE = 0) :
    Event.sendtoCall payload ∈
      (send_w_ts cfg senv sock addr payload ts0).2.2 ∧
    (recv_w_ts ⟨true, payload, srcaddr, x⟩ rsock flags pkt0).1 = 0 ∧
    (recv_w_ts ⟨true, payload, srcaddr, x⟩ rsock flags pkt0).2.1.data =
      payload := by
  have htake : payload.take DATALEN = payload :=
    List.take_of_length_le (le_of_eq hlen)
  have hexact := overwriteStart_zero_exact payload hlen
  refine ⟨?_, ?_, ?_⟩
  · rcases senv with ⟨cl, so, f⟩
    cases f <;> by_cases hc : cfg.ts = 'u' <;>
      simp_all [send_w_ts, htake]
  · cases x <;> simp [recv_w_ts, hf]
  · cases x <;> simp [recv_w_ts, hf, hexact]

/-- Witness for C6 with the concrete `DATALEN`-byte payload of all
threes, carried unchanged from the send's wire image to the received
packet. -/
theorem send_recv_payload_roundtrip_witness :
    Event.sendtoCall (List.replicate DATALEN 3) ∈
      (send_w_ts ⟨'u'⟩ ⟨ts_zero, true, none⟩ 3 0
        (List.replicate DATALEN 3) ts_zero).2.2 ∧
    (recv_w_ts ⟨true, List.replicate DATALEN 3, 9, none⟩ 4 0
      ⟨0, [], ts_zero⟩).1 = 0 ∧
    (recv_w_ts ⟨true, List.replicate DATALEN 3, 9, none⟩ 4 0
      ⟨0, [], ts_zero⟩).2.1.data = List.replicate DATALEN 3 :=
  send_recv_payload_roundtrip ⟨'u'⟩ ⟨ts_zero, true, none⟩ 3 0 4 0 9
    (List.replicate DATALEN 3) ts_zero none ⟨0, [], ts_zero⟩
    (by decide) rfl rfl

/-- `true` when the trace contains a `syslog` entry at warning level. -/
def hasWarnLog (tr : List Event) : Bool :=
  tr.any fun e =>
    match e with
    | Event.logged LogLevel.warning _ => true
    | _ => false

/-- C7 counterexample: a run in which disabling `IPV6_V6ONLY` fails on
both sockets while every other step succeeds emits no warning-level log
entry at all — the failures are logged at `LOG_ERR` — even though the
binder does continue and returns both descriptors. -/
theorem v6only_warning_counterexample :
    hasWarnLog
      (bind_or_die ⟨some 4, false, true, some 5, false, true, true, true⟩
        860).2 = false ∧
    Event.logged .err "setsockopt: IPV6_V6ONLY" ∈
      (bind_or_die ⟨some 4, false, true, some 5, false, true, true, true⟩
        860).2 ∧
    (bind_or_die ⟨some 4, false, true, some 5, false, true, true, true⟩
      860).1 = BindResult.ret 4 5 := by
  decide

/-- C7 (amended): a failure to disable the IPv6-only restriction is
best-effort — it is logged at error level (`LOG_ERR`, not as a
warning) and the binder continues to the bind step rather than
aborting: the run still reaches a `bind` call, and the process outcome
is exactly the one of the run where both `IPV6_V6ONLY` options
succeed, whatever the two options' outcomes are. -/
theorem bind_v6only_best_effort (u port : Nat) (ub : Bool)
    (tsk : Option Nat) (tv trs tb lo : Bool) :
    Event.logged .err "setsockopt: IPV6_V6ONLY" ∈
      (bind_or_die ⟨some u, false, ub, tsk, tv, trs, tb, lo⟩ port).2 ∧
    Event.bindCall ∈
      (bind_or_die ⟨some u, false, ub, tsk, tv, trs, tb, lo⟩ port).2 ∧
    ∀ b1 b2,
      (bind_or_die ⟨some u, b1, ub, tsk, b2, trs, tb, lo⟩ port).1 =
        (bind_or_die ⟨some u, true, ub, tsk, true, trs, tb, lo⟩ port).1 := by
  refine ⟨?_, ?_, ?_⟩
  · cases ub <;> cases tsk <;> cases tv <;> cases trs <;> cases tb <;>
      cases lo <;> simp [bind_or_die]
  · cases ub <;> cases tsk <;> cases tv <;> cases trs <;> cases tb <;>
      cases lo <;> simp [bind_or_die]
  · intro b1 b2
    cases ub <;> cases tsk <;> cases tb <;> cases lo <;> rfl

end SlaNg
